import Mathlib

/-!
Verification of the Active Directory authentication client
(pkg/auth/providers/activedirectory/activedirectory_client.go).

The Go source is shallowly embedded below: pure fragments become Lean
functions, the LDAP connection becomes a record of response functions,
fallible code returns Except, and Go runtime panics are modelled as a
dedicated error constructor so they stay distinguishable from returned
errors.  Helpers that live outside the analysed file (package constants,
pkg/auth/providers/common/ldap helpers, the gopkg.in/ldap.v2 library)
are modelled from the specification and marked as such in their doc
comments.
-/

namespace AD

/-- Raw directory attribute: a name plus an ordered list of string values
(mirrors ldapv2.EntryAttribute). -/
structure EntryAttribute where
  name : String
  values : List String
deriving DecidableEq

/-- Raw directory entry: a distinguished name plus its attributes
(mirrors ldapv2.Entry). -/
structure LdapEntry where
  dn : String
  attributes : List EntryAttribute
deriving DecidableEq

/-- Result of a directory search (mirrors ldapv2.SearchResult). -/
structure SearchResult where
  entries : List LdapEntry
deriving DecidableEq

/-- A search request as built by ldapv2.NewSearchRequest: base DN, scope
(whole-subtree or base-object), filter string and attribute projection. -/
structure SearchRequest where
  baseDN : String
  scope : Nat
  filter : String
  attributes : List String
deriving DecidableEq

/-- Normalized identity record (the fields of v3.Principal that this file
reads or writes; `name` is ObjectMeta.Name, the principal id). -/
structure Principal where
  name : String
  displayName : String
  loginName : String
  principalType : String
  provider : String
  me : Bool
  memberOf : Bool
deriving DecidableEq

/-- The Go zero value v3.Principal\x7b\x7d: every field empty / false. -/
def emptyPrincipal : Principal :=
  { name := "", displayName := "", loginName := "", principalType := ""
    provider := "", me := false, memberOf := false }

/-- The fields of v3.ActiveDirectoryConfig read by the analysed file. -/
structure ActiveDirectoryConfig where
  enabled : Bool
  serviceAccountUsername : String
  serviceAccountPassword : String
  defaultLoginDomain : String
  userSearchBase : String
  groupSearchBase : String
  userObjectClass : String
  groupObjectClass : String
  userNameAttribute : String
  userLoginAttribute : String
  userSearchAttribute : String
  groupNameAttribute : String
  groupSearchAttribute : String
  accessMode : String
  allowedPrincipalIDs : List String
deriving DecidableEq

/-- Classification codes attached to API errors by the norman httperror
package (the codes this client uses), extended with the taxonomy names the
specification introduces (Ambiguous, InvalidInput) so claims about them can
be stated. -/
inductive ErrorCode where
  | MissingRequired
  | Unauthorized
  | NotFound
  | Ambiguous
  | ServerError
  | InvalidInput
deriving DecidableEq

/-- An error produced by the directory library (gopkg.in/ldap.v2).
`withCode` is a typed *ldapv2.Error carrying an LDAP result code (the type
assertion in the Go code succeeds on it); `other` is any other Go error
(the type assertion fails). -/
inductive LdapError where
  | withCode (resultCode : Nat) (msg : String)
  | other (msg : String)
deriving DecidableEq

/-- Errors observable from the client functions.  `apiError` is a
classified httperror (NewAPIError / WrapAPIError), `generic` is a plain
fmt.Errorf error, `ldapError` is a directory error returned verbatim, and
`goPanic` models a Go runtime panic (not a returned error). -/
inductive AdError where
  | apiError (code : ErrorCode) (msg : String)
  | generic (msg : String)
  | ldapError (e : LdapError)
  | goPanic (msg : String)
deriving DecidableEq

deriving instance DecidableEq for Except

/-- Modelled from the spec: ldapv2.LDAPResultInvalidCredentials (external
library constant), LDAP result code 49. -/
def LDAPResultInvalidCredentials : Nat := 49

/-- Modelled from the spec: ldapv2.LDAPResultNoSuchObject (external library
constant), LDAP result code 32 ("no such object" / base not found). -/
def LDAPResultNoSuchObject : Nat := 32

/-- Modelled from the spec: ldapv2.ScopeWholeSubtree (external library
constant). -/
def ScopeWholeSubtree : Nat := 2

/-- Modelled from the spec: ldapv2.ScopeBaseObject (external library
constant, single-object search). -/
def ScopeBaseObject : Nat := 0

/-- Modelled from the spec: ldapv2.IsErrorWithCode (external library):
true exactly when the error is a typed LDAP error carrying the given
result code. -/
def IsErrorWithCode (e : LdapError) (code : Nat) : Bool :=
  match e with
  | .withCode c _ => c == code
  | .other _ => false

/-- Message rendering of a directory error (Go fmt %v). -/
def ldapErrMsg : LdapError → String
  | .withCode _ m => m
  | .other m => m

/-- Modelled from the spec: the package constants UserScope / GroupScope /
scopes / MemberOfAttribute / ObjectClassAttribute / Name are declared in a
sibling file of the package that is not under src/.  The spec fixes
scope to user or group and the id shape to scope://dn (section 3), and
names the member-of and object-class directory attributes (glossary). -/
def UserScope : String := "user"

/-- Modelled from the spec: the group scope constant, see UserScope. -/
def GroupScope : String := "group"

/-- Modelled from the spec: the list of valid scopes, see UserScope. -/
def scopes : List String := [UserScope, GroupScope]

/-- Modelled from the spec: the member-of attribute name, see UserScope. -/
def MemberOfAttribute : String := "memberOf"

/-- Modelled from the spec: the object-class attribute name, see
UserScope. -/
def ObjectClassAttribute : String := "objectClass"

/-- Modelled from the spec: the provider name constant (the fixed backend
tag written into Principal.provider). -/
def Name : String := "activedirectory"

/-- Models Go strings.EqualFold as used by the source and, per the spec
(section 4.4), by the external ldap.IsType helper: case-insensitive string
comparison (ASCII folding suffices for every value this development
evaluates). -/
def equalFold (a b : String) : Bool :=
  a.data.map Char.toLower == b.data.map Char.toLower

/-- Modelled from the spec: ldap.IsType (pkg/auth/providers/common/ldap,
not under src/): whether the entry attributes carry an object-class value
matching the given type, case-insensitively (spec section 4.4). -/
def IsType (attribs : List EntryAttribute) (t : String) : Bool :=
  attribs.any fun a => a.name == ObjectClassAttribute && a.values.any fun v => equalFold v t

/-- Modelled from the spec: ldapv2.Entry.GetAttributeValues (external
library): the values of the first attribute with the given name, or the
empty list. -/
def GetAttributeValues (e : LdapEntry) (attrName : String) : List String :=
  match e.attributes.find? (fun a => a.name == attrName) with
  | some a => a.values
  | none => []

/-- Modelled from the spec: ldap.GetUserExternalID (pkg/auth/providers/
common/ldap, not under src/): combines the raw username with the
configured default login-domain when the username carries no domain
qualifier; domain-qualified usernames are used as-is (spec section 4.1). -/
def GetUserExternalID (username loginDomain : String) : String :=
  if username.data.contains '\\' then username
  else if loginDomain != "" then loginDomain ++ "\\" ++ username
  else username

/-- Modelled from the spec: per-character escaping of ldapv2.EscapeFilter
(gopkg.in/ldap.v2, external library): the LDAP filter metacharacters
parenthesis, backslash, asterisk and NUL are replaced by backslash-hex
escapes per RFC 4515 (spec section 4.2 filter-escaping rules). -/
def escapeFilterChar (c : Char) : List Char :=
  if c = '(' then ['\\', '2', '8']
  else if c = ')' then ['\\', '2', '9']
  else if c = '\\' then ['\\', '5', 'c']
  else if c = '*' then ['\\', '2', 'a']
  else if c = Char.ofNat 0 then ['\\', '0', '0']
  else [c]

/-- Modelled from the spec: ldapv2.EscapeFilter (external library), see
escapeFilterChar. -/
def EscapeFilter (s : String) : String :=
  ⟨s.data.flatMap escapeFilterChar⟩

/-- Modelled from the spec: ldap.EscapeLDAPSearchFilter
(pkg/auth/providers/common/ldap, not under src/): escapes the same filter
metacharacters before free-text search interpolation (spec section 4.7). -/
def EscapeLDAPSearchFilter (s : String) : String :=
  ⟨s.data.flatMap escapeFilterChar⟩

/-- Modelled from the spec: ldap.GetUserSearchAttributes (pkg/auth/
providers/common/ldap, not under src/): the attribute projection for user
searches (member-of, object-class plus the configured user attributes). -/
def GetUserSearchAttributes (memberOf objectClass : String)
    (config : ActiveDirectoryConfig) : List String :=
  [memberOf, objectClass, config.userLoginAttribute, config.userNameAttribute]

/-- Modelled from the spec: ldap.GetGroupSearchAttributes (pkg/auth/
providers/common/ldap, not under src/): the attribute projection for group
searches. -/
def GetGroupSearchAttributes (memberOf objectClass : String)
    (config : ActiveDirectoryConfig) : List String :=
  [memberOf, objectClass, config.groupNameAttribute, config.userLoginAttribute]

/-- A live directory connection, modelled as its observable responses: the
bind outcome for given credentials (none = success), the reply to a
non-paged search, and the reply to a paged search (partial results plus an
optional error, as SearchWithPaging returns both in Go). -/
structure Conn where
  bindResult : String → String → Option LdapError
  searchResult : SearchRequest → Except LdapError SearchResult
  searchPagedResult : SearchRequest → Nat → SearchResult × Option LdapError

/-- The adProvider receiver together with its external collaborators:
ldap.NewLDAPConn (connection provider), ldap.HasPermission (directory-side
permission predicate), userMGR.CheckAccess (authorization collaborator)
and ldapv2.ParseDN (DN parser); all external to the analysed file and
modelled as record fields. -/
structure AdProvider where
  newConn : Except AdError Conn
  hasPermission : List EntryAttribute → ActiveDirectoryConfig → Bool
  checkAccess : String → List String → Principal → List Principal → Except AdError Bool
  parseDN : String → Except AdError (List EntryAttribute)

/-- Everything after and including the first backslash removed, on
character lists: the tail of strings.SplitN(username, backslash, 2). -/
def dropThroughBackslash : List Char → List Char
  | [] => []
  | c :: rest => if c = '\\' then rest else dropThroughBackslash rest

/-- loginUser lines 60-63: the bare account name used in the search
filter.  When the username contains a domain separator backslash,
strings.SplitN(username, backslash, 2)[1] keeps only the portion after the
first separator; otherwise the username is used unchanged. -/
def samNameOf (username : String) : String :=
  if username.data.contains '\\' then ⟨dropThroughBackslash username.data⟩
  else username

/-- loginUser line 64: the user search filter built from the escaped bare
account name. -/
def loginQueryFilter (config : ActiveDirectoryConfig) (username : String) : String :=
  "(" ++ config.userLoginAttribute ++ "=" ++ EscapeFilter (samNameOf username) ++ ")"

/-- loginUser lines 66-69: the whole-subtree user search request. -/
def loginSearchRequest (config : ActiveDirectoryConfig) (username : String) : SearchRequest :=
  { baseDN := config.userSearchBase
    scope := ScopeWholeSubtree
    filter := loginQueryFilter config username
    attributes := GetUserSearchAttributes MemberOfAttribute ObjectClassAttribute config }

/-- attributesToPrincipal lines 342-353, one iteration of the user-branch
loop over the entry attributes; the state is (accountName, login).  The
access attr.Values[0] on the user-login attribute has no length guard in
the source, so an empty value list is a Go index-out-of-range panic. -/
def userAttrStep (config : ActiveDirectoryConfig) (externalID : String)
    (st : String × String) (attr : EntryAttribute) : Except AdError (String × String) :=
  let accountName :=
    if attr.name == config.userNameAttribute then
      match attr.values with
      | [] => externalID
      | v :: _ => v
    else st.1
  if attr.name == config.userLoginAttribute then
    match attr.values with
    | [] => .error (.goPanic ("runtime error: index out of range"))
    | v :: _ => .ok (accountName, v)
  else .ok (accountName, st.2)

/-- attributesToPrincipal lines 356-371, one iteration of the group-branch
loop.  The else of the user-login-attribute test overwrites login with the
current accountName on every attribute whose name differs, so the final
login value depends on the enumeration order of the attributes. -/
def groupAttrStep (config : ActiveDirectoryConfig) (externalID : String)
    (st : String × String) (attr : EntryAttribute) : String × String :=
  let accountName :=
    if attr.name == config.groupNameAttribute then
      match attr.values with
      | [] => externalID
      | v :: _ => v
    else st.1
  let login :=
    if attr.name == config.userLoginAttribute then
      match attr.values with
      | [] => st.2
      | v :: _ => if v != "" then v else st.2
    else accountName
  (accountName, login)

/-- attributesToPrincipal lines 336-387: maps a raw entry to a Principal.
Returns ok none where Go returns (nil, nil) (unrecognized object class);
the Go error result is always nil, so the only error this can produce is
the modelled panic from the unguarded index in the user branch. -/
def attributesToPrincipal (attribs : List EntryAttribute) (dnStr scope : String)
    (config : ActiveDirectoryConfig) : Except AdError (Option Principal) :=
  let externalID := dnStr
  let externalIDType := scope
  if IsType attribs config.userObjectClass then
    match attribs.foldlM (userAttrStep config externalID) ("", "") with
    | .error e => .error e
    | .ok (accountName, login) =>
        .ok (some
          { name := externalIDType ++ "://" ++ externalID
            displayName := accountName
            loginName := login
            principalType := "user"
            provider := Name
            me := false
            memberOf := false })
  else if IsType attribs config.groupObjectClass then
    let st := attribs.foldl (groupAttrStep config externalID) ("", "")
    .ok (some
      { name := externalIDType ++ "://" ++ externalID
        displayName := st.1
        loginName := st.2
        principalType := "group"
        provider := Name
        me := false
        memberOf := false })
  else
    .ok none

/-- getGroupPrincipals lines 212-226: per-entry mapping of group search
results.  A nil principal is skipped (the reflect.DeepEqual guard in the
source compares a pointer with a nil slice and is therefore always true);
the err result of attributesToPrincipal is always nil, so only a modelled
panic propagates. -/
def mapGroupEntries (config : ActiveDirectoryConfig) :
    List LdapEntry → Except AdError (List Principal)
  | [] => .ok []
  | e :: rest =>
    match attributesToPrincipal e.attributes e.dn GroupScope config with
    | .error pan => .error pan
    | .ok none => mapGroupEntries config rest
    | .ok (some principal) =>
      match mapGroupEntries config rest with
      | .error pan => .error pan
      | .ok ps => .ok ({ principal with memberOf := true } :: ps)

/-- getGroupPrincipals lines 184-190: the group-by-distinguished-names
filter, an AND of the group object-class clause with an OR of per-DN
equality clauses over the escaped DNs. -/
def groupQueryFilter (config : ActiveDirectoryConfig) (groupDN : List String) : String :=
  let filter := "(" ++ ObjectClassAttribute ++ "=" ++ config.groupObjectClass ++ ")"
  let query :=
    (groupDN.foldl (fun q dn => q ++ "(distinguishedName=" ++ EscapeFilter dn ++ ")") "(|") ++ ")"
  "(&" ++ filter ++ query ++ ")"

/-- getGroupPrincipals lines 193-200: the group search request (group
search base when configured, else the user search base). -/
def groupSearchRequest (config : ActiveDirectoryConfig) (groupDN : List String) : SearchRequest :=
  let searchDomain :=
    if config.groupSearchBase != "" then config.groupSearchBase else config.userSearchBase
  { baseDN := searchDomain
    scope := ScopeWholeSubtree
    filter := groupQueryFilter config groupDN
    attributes := GetGroupSearchAttributes MemberOfAttribute ObjectClassAttribute config }

/-- getGroupPrincipals lines 159-229: resolves one batch of member-of DNs.
Binds the service account first; on an invalid-credentials bind failure
with config.Enabled set it synthesizes one minimal group principal per DN
without searching; on any other bind failure it returns a plain error.
The second component records every search request issued, so the degraded
path is observably search-free. -/
def getGroupPrincipals (p : AdProvider) (groupDN : List String) (conn : Conn)
    (config : ActiveDirectoryConfig) :
    Except AdError (List Principal) × List SearchRequest :=
  let serviceAccountUsername :=
    GetUserExternalID config.serviceAccountUsername config.defaultLoginDomain
  match conn.bindResult serviceAccountUsername config.serviceAccountPassword with
  | some err =>
    if IsErrorWithCode err LDAPResultInvalidCredentials && config.enabled then
      (.ok (groupDN.map fun dn =>
        { name := GroupScope ++ "://" ++ dn
          displayName := dn
          loginName := dn
          principalType := GroupScope
          provider := ""
          me := false
          memberOf := true }), [])
    else
      (.error (.generic ("Error in ldap bind: " ++ ldapErrMsg err)), [])
  | none =>
    let search := groupSearchRequest config groupDN
    match conn.searchResult search with
    | .error err =>
      match err with
      | .withCode c _ =>
        if c == 32 then
          (.error (.apiError .NotFound (search.baseDN ++ " not found")), [search])
        else
          (.error (.apiError .ServerError ("Internal server error")), [search])
      | .other _ =>
        (.error (.apiError .ServerError ("Internal server error")), [search])
    | .ok result =>
      match mapGroupEntries config result.entries with
      | .error pan => (.error pan, [search])
      | .ok principals => (.ok principals, [search])

/-- Source lines 152-157: the helper func min(a int, b int) int.  The
arguments at its only call site are non-negative slice indices, so it is
embedded at Nat. -/
def min (a b : Nat) : Nat :=
  if a < b then a else b

/-- getPrincipalsFromSearchResult lines 140-147, the batch slicing only:
the loop takes memberOf[i : min(i+50, len)] for i = 0, 50, 100, ....  The
first argument is recursion fuel; memberOf.length + 1 iterations always
suffice because the index advances by 50 each step. -/
def groupBatchesAux (memberOf : List String) : Nat → Nat → List (List String)
  | 0, _ => []
  | fuel + 1, i =>
    if i < memberOf.length then
      ((memberOf.drop i).take (min (i + 50) memberOf.length - i))
        :: groupBatchesAux memberOf fuel (i + 50)
    else []

/-- The batches of member-of DNs the resolution loop iterates over. -/
def batches (memberOf : List String) : List (List String) :=
  groupBatchesAux memberOf (memberOf.length + 1) 0

/-- getPrincipalsFromSearchResult lines 140-147: the batching loop itself.
Each iteration passes one batch to getGroupPrincipals and appends its
principals; an error aborts the loop.  The second component records every
batch submitted.  Fuel as in groupBatchesAux. -/
def groupBatchLoopAux (p : AdProvider) (conn : Conn) (config : ActiveDirectoryConfig)
    (memberOf : List String) :
    Nat → Nat → List Principal → Except AdError (List Principal) × List (List String)
  | 0, _, acc => (.ok acc, [])
  | fuel + 1, i, acc =>
    if i < memberOf.length then
      let batch := (memberOf.drop i).take (min (i + 50) memberOf.length - i)
      match getGroupPrincipals p batch conn config with
      | (.error e, _) => (.error e, [batch])
      | (.ok ps, _) =>
        let rest := groupBatchLoopAux p conn config memberOf fuel (i + 50) (acc ++ ps)
        (rest.1, batch :: rest.2)
    else (.ok acc, [])

/-- getPrincipalsFromSearchResult lines 102-150.  Reads the first entry
(our callers guarantee exactly one; an empty entry list would be a Go
index panic), checks the external permission predicate, checks the
object-class values against the configured user object class
(case-insensitively, source lines 116-122), and on a failed check returns
the zero-value principal with no groups and no error.  Otherwise maps the
user principal, marks it Me, and resolves the member-of list in batches of
50 on a fresh connection.  The second component records the batches
submitted to getGroupPrincipals. -/
def getPrincipalsFromSearchResult (p : AdProvider) (result : SearchResult)
    (config : ActiveDirectoryConfig) :
    Except AdError (Principal × List Principal) × List (List String) :=
  match result.entries with
  | [] => (.error (.goPanic ("runtime error: index out of range")), [])
  | entry :: _ =>
    if !(p.hasPermission entry.attributes config) then
      (.error (.generic ("Permission denied")), [])
    else
      let memberOf := GetAttributeValues entry MemberOfAttribute
      let objectClass := GetAttributeValues entry ObjectClassAttribute
      let isType := objectClass.foldl
        (fun acc obj => if equalFold obj config.userObjectClass then true else acc) false
      if !isType then
        (.ok (emptyPrincipal, []), [])
      else
        match attributesToPrincipal entry.attributes entry.dn UserScope config with
        | .error pan => (.error pan, [])
        | .ok none =>
          (.error (.goPanic ("runtime error: invalid memory address or nil pointer dereference")), [])
        | .ok (some user) =>
          let userPrincipal := { user with me := true }
          if memberOf.length != 0 then
            match p.newConn with
            | .error e => (.error e, [])
            | .ok lConn =>
              let r := groupBatchLoopAux p lConn config memberOf (memberOf.length + 1) 0 []
              match r.1 with
              | .error e => (.error e, r.2)
              | .ok groupPrincipals => (.ok (userPrincipal, groupPrincipals), r.2)
          else (.ok (userPrincipal, []), [])

/-- userRecord lines 87-100: runs the user search and requires exactly one
entry.  The search error is returned verbatim; the zero-entry and
multi-entry errors are plain fmt.Errorf errors, not classified API
errors. -/
def userRecord (p : AdProvider) (search : SearchRequest) (conn : Conn)
    (config : ActiveDirectoryConfig) :
    Except AdError (Principal × List Principal) × List (List String) :=
  match conn.searchResult search with
  | .error err => (.error (.ldapError err), [])
  | .ok result =>
    if result.entries.length < 1 then
      (.error (.generic ("Cannot locate user information for " ++ search.filter)), [])
    else if result.entries.length > 1 then
      (.error (.generic ("ldap user search found more than one result")), [])
    else
      getPrincipalsFromSearchResult p result config

/-- loginUser lines 20-85: the login orchestration.  Empty password is a
MissingRequired API error before any bind; when the provider is not
enabled a service-account pre-bind is performed first; the user bind
classifies invalid credentials as Unauthorized and anything else as
ServerError; then the user search, userRecord and the external
authorization check run.  Metadata on success is the empty map. -/
def loginUser (p : AdProvider) (username password : String)
    (config : ActiveDirectoryConfig) :
    Except AdError (Principal × List Principal × List (String × String)) :=
  if password == "" then
    .error (.apiError .MissingRequired ("password not provided"))
  else
    let externalID := GetUserExternalID username config.defaultLoginDomain
    match p.newConn with
    | .error e => .error e
    | .ok lConn =>
      let serviceCheck : Except AdError Unit :=
        if !config.enabled then
          if config.serviceAccountPassword == "" then
            .error (.apiError .MissingRequired ("service account password not provided"))
          else
            let sausername :=
              GetUserExternalID config.serviceAccountUsername config.defaultLoginDomain
            match lConn.bindResult sausername config.serviceAccountPassword with
            | some err =>
              if IsErrorWithCode err LDAPResultInvalidCredentials then
                .error (.apiError .Unauthorized ("authentication failed"))
              else
                .error (.apiError .ServerError ("server error while authenticating"))
            | none => .ok ()
        else .ok ()
      match serviceCheck with
      | .error e => .error e
      | .ok _ =>
        match lConn.bindResult externalID password with
        | some err =>
          if IsErrorWithCode err LDAPResultInvalidCredentials then
            .error (.apiError .Unauthorized ("authentication failed"))
          else
            .error (.apiError .ServerError ("server error while authenticating"))
        | none =>
          let search := loginSearchRequest config username
          match (userRecord p search lConn config).1 with
          | .error e => .error e
          | .ok (userPrincipal, groupPrincipals) =>
            match p.checkAccess config.accessMode config.allowedPrincipalIDs
                userPrincipal groupPrincipals with
            | .error e => .error e
            | .ok allowed =>
              if !allowed then
                .error (.apiError .Unauthorized ("unauthorized"))
              else
                .ok (userPrincipal, groupPrincipals, [])

/-- getPrincipal lines 294-304: the base-object lookup request at the
distinguished name, with the object-class filter for the scope. -/
def getPrincipalSearchRequest (distinguishedName scope : String)
    (config : ActiveDirectoryConfig) : SearchRequest :=
  if equalFold UserScope scope then
    { baseDN := distinguishedName
      scope := ScopeBaseObject
      filter := "(" ++ ObjectClassAttribute ++ "=" ++ config.userObjectClass ++ ")"
      attributes := GetUserSearchAttributes MemberOfAttribute ObjectClassAttribute config }
  else
    { baseDN := distinguishedName
      scope := ScopeBaseObject
      filter := "(" ++ ObjectClassAttribute ++ "=" ++ config.groupObjectClass ++ ")"
      attributes := GetGroupSearchAttributes MemberOfAttribute ObjectClassAttribute config }

/-- getPrincipal lines 231-334: exact lookup of a principal by DN.
Validates the scope, parses the DN and runs the local type/permission
pre-check (a failed pre-check returns ok none, mirroring the Go
(nil, nil)); binds the service account, with the same degraded DN-only
fallback as group resolution when the bind fails with invalid credentials
and config.Enabled is set; then a base-object search.  A search failure
with result code 32 is a NotFound API error and any other search failure
a ServerError API error, but zero entries and multiple entries yield
plain fmt.Errorf errors. -/
def getPrincipal (p : AdProvider) (distinguishedName scope : String)
    (config : ActiveDirectoryConfig) : Except AdError (Option Principal) :=
  if !(scopes.contains scope) then
    .error (.generic ("Invalid scope"))
  else
    match p.parseDN distinguishedName with
    | .error e => .error e
    | .ok attribs =>
      if !(IsType attribs scope) && !(p.hasPermission attribs config) then
        .ok none
      else
        match p.newConn with
        | .error e => .error e
        | .ok lConn =>
          let serviceAccountUsername :=
            GetUserExternalID config.serviceAccountUsername config.defaultLoginDomain
          match lConn.bindResult serviceAccountUsername config.serviceAccountPassword with
          | some err =>
            if IsErrorWithCode err LDAPResultInvalidCredentials && config.enabled then
              let kind :=
                if equalFold UserScope scope then "user"
                else if equalFold GroupScope scope then "group"
                else ""
              .ok (some
                { name := scope ++ "://" ++ distinguishedName
                  displayName := distinguishedName
                  loginName := distinguishedName
                  principalType := kind
                  provider := ""
                  me := false
                  memberOf := false })
            else
              .error (.generic ("Error in ldap bind: " ++ ldapErrMsg err))
          | none =>
            let search := getPrincipalSearchRequest distinguishedName scope config
            match lConn.searchResult search with
            | .error err =>
              match err with
              | .withCode c _ =>
                if c == 32 then
                  .error (.apiError .NotFound (distinguishedName ++ " not found"))
                else
                  .error (.apiError .ServerError ("Internal server error"))
              | .other _ =>
                .error (.apiError .ServerError ("Internal server error"))
            | .ok result =>
              match result.entries with
              | [] => .error (.generic ("No identities can be retrieved"))
              | [entry] =>
                if !(p.hasPermission entry.attributes config) then
                  .error (.generic ("Permission denied"))
                else
                  match attributesToPrincipal entry.attributes distinguishedName scope config with
                  | .error pan => .error pan
                  | .ok none => .error (.generic ("Principal not returned for LDAP"))
                  | .ok (some principal) => .ok (some principal)
              | _ :: _ :: _ => .error (.generic ("More than one result found"))

/-- searchUser lines 413-423: the free-text user filter, an AND of the
object-class clause with an OR of per-attribute prefix-wildcard clauses
over the configured search attributes. -/
def searchUserQuery (name : String) (config : ActiveDirectoryConfig) : String :=
  let srchAttributes := config.userSearchAttribute.splitOn "|"
  let srchAttrs :=
    srchAttributes.foldl (fun q attr => q ++ "(" ++ attr ++ "=" ++ name ++ "*)") "(|"
  "(&(" ++ ObjectClassAttribute ++ "=" ++ config.userObjectClass ++ ")" ++ srchAttrs ++ "))"

/-- searchGroup lines 425-430: the free-text group filter with a substring
wildcard around the text. -/
def searchGroupQuery (name : String) (config : ActiveDirectoryConfig) : String :=
  "(&(" ++ config.groupSearchAttribute ++ "=*" ++ name ++ "*)(" ++ ObjectClassAttribute
    ++ "=" ++ config.groupObjectClass ++ "))"

/-- searchLdap lines 472-479: mapping of paged search entries.  An
unrecognized entry makes attributesToPrincipal return nil, and the
unconditional dereference in the source is a Go nil-pointer panic. -/
def mapSearchEntries (scope : String) (config : ActiveDirectoryConfig) :
    List LdapEntry → Except AdError (List Principal)
  | [] => .ok []
  | entry :: rest =>
    match attributesToPrincipal entry.attributes entry.dn scope config with
    | .error pan => .error pan
    | .ok none =>
      .error (.goPanic ("runtime error: invalid memory address or nil pointer dereference"))
    | .ok (some principal) =>
      match mapSearchEntries scope config rest with
      | .error pan => .error pan
      | .ok ps => .ok (principal :: ps)

/-- searchLdap lines 436-450: the paged bulk search request (user search
base for user scope; group search base, when configured, for group
scope).  The searchLdap orchestration follows: after a service bind,
SearchWithPaging runs with page size 1000; its error is fatal only when
it is a typed LDAP error whose result code differs from no-such-object
(32) - a code-32 error, and any non-LDAP-typed error, fall through
silently and the (partial) results are mapped. -/
def searchLdapRequest (query scope : String)
    (config : ActiveDirectoryConfig) : SearchRequest :=
  if equalFold UserScope scope then
    { baseDN := config.userSearchBase
      scope := ScopeWholeSubtree
      filter := query
      attributes := GetUserSearchAttributes MemberOfAttribute ObjectClassAttribute config }
  else
    let searchDomain :=
      if config.groupSearchBase != "" then config.groupSearchBase else config.userSearchBase
    { baseDN := searchDomain
      scope := ScopeWholeSubtree
      filter := query
      attributes := GetGroupSearchAttributes MemberOfAttribute ObjectClassAttribute config }

/-- searchLdap lines 432-482, continued: the orchestration around the
paged search. -/
def searchLdap (p : AdProvider) (query scope : String)
    (config : ActiveDirectoryConfig) : Except AdError (List Principal) :=
  let search := searchLdapRequest query scope config
  match p.newConn with
  | .error e => .error e
  | .ok lConn =>
    let serviceAccountUsername :=
      GetUserExternalID config.serviceAccountUsername config.defaultLoginDomain
    match lConn.bindResult serviceAccountUsername config.serviceAccountPassword with
    | some err => .error (.generic ("Error " ++ ldapErrMsg err ++ " in ldap bind"))
    | none =>
      let results := lConn.searchPagedResult search 1000
      let fatal :=
        match results.2 with
        | some (.withCode c _) => c != LDAPResultNoSuchObject
        | some (.other _) => false
        | none => false
      if fatal then
        .error (.generic ("When searching ldap, Failed to search: " ++ query))
      else
        mapSearchEntries scope config results.1.entries

/-- searchPrincipals lines 389-411: escapes the free text, then runs the
user and/or group bulk searches per the requested principal type and
concatenates user results before group results. -/
def searchPrincipals (p : AdProvider) (name principalType : String)
    (config : ActiveDirectoryConfig) : Except AdError (List Principal) :=
  let escapedName := EscapeLDAPSearchFilter name
  let userPart : Except AdError (List Principal) :=
    if principalType == "" || principalType == "user" then
      searchLdap p (searchUserQuery escapedName config) UserScope config
    else .ok []
  match userPart with
  | .error e => .error e
  | .ok users =>
    let groupPart : Except AdError (List Principal) :=
      if principalType == "" || principalType == "group" then
        searchLdap p (searchGroupQuery escapedName config) GroupScope config
      else .ok []
    match groupPart with
    | .error e => .error e
    | .ok groups => .ok (users ++ groups)

/-- The success value of a result, if any. -/
def okValue : Except AdError α → Option α
  | .ok a => some a
  | .error _ => none

/-- Whether an error is an API error classified with the given code. -/
def isApiErrorWithCode (e : AdError) (code : ErrorCode) : Bool :=
  match e with
  | .apiError c _ => c == code
  | _ => false

/-- The loginName of the principal a mapping result carries, if any. -/
def mappedLoginName : Except AdError (Option Principal) → Option String
  | .ok (some pr) => some pr.loginName
  | _ => none

/-- The displayName of the principal a mapping result carries, if any. -/
def mappedDisplayName : Except AdError (Option Principal) → Option String
  | .ok (some pr) => some pr.displayName
  | _ => none

/-- Arithmetic shadow of groupBatchesAux: the batch lengths as a function
of the input length alone. -/
def batchLengths (len : Nat) : Nat → Nat → List Nat
  | 0, _ => []
  | fuel + 1, i =>
    if i < len then (min (i + 50) len - i) :: batchLengths len fuel (i + 50)
    else []

/-- Whether a close-parenthesis immediately followed by an open-parenthesis
occurs anywhere in the character list. -/
def containsParenPair : List Char → Bool
  | [] => false
  | [_] => false
  | a :: b :: rest => (a == ')' && b == '(') || containsParenPair (b :: rest)

/-- A configuration shared by the concrete scenarios below. -/
def baseConfig : ActiveDirectoryConfig :=
  { enabled := true
    serviceAccountUsername := "svc"
    serviceAccountPassword := "svcpw"
    defaultLoginDomain := "EXAMPLE"
    userSearchBase := "ou=users,dc=example,dc=com"
    groupSearchBase := ""
    userObjectClass := "person"
    groupObjectClass := "group"
    userNameAttribute := "name"
    userLoginAttribute := "sAMAccountName"
    userSearchAttribute := "sAMAccountName|sn|givenName"
    groupNameAttribute := "name"
    groupSearchAttribute := "sAMAccountName"
    accessMode := "unrestricted"
    allowedPrincipalIDs := [] }

/-- A provider whose connection attempts yield the given connection and
whose external collaborators are permissive. -/
def providerWith (conn : Conn) : AdProvider :=
  { newConn := .ok conn
    hasPermission := fun _ _ => true
    checkAccess := fun _ _ _ _ => .ok true
    parseDN := fun _ => .ok [] }

/-- C1: for every non-empty batch of membership DNs, if the service-account
bind on the connection fails with an invalid-credentials error and the
provider is configured for unauthenticated operation (config.Enabled), group
resolution returns, without error and without issuing any search, exactly
one group Principal per input DN, with displayName and loginName equal to
the DN, kind group, id group://DN and isMemberOf true. -/
theorem c1_degraded_group_fallback
    (p : AdProvider) (groupDN : List String) (conn : Conn)
    (config : ActiveDirectoryConfig) (em : String)
    (hne : groupDN ≠ [])
    (hbind : conn.bindResult
        (GetUserExternalID config.serviceAccountUsername config.defaultLoginDomain)
        config.serviceAccountPassword = some (.withCode LDAPResultInvalidCredentials em))
    (hen : config.enabled = true) :
    (getGroupPrincipals p groupDN conn config).2 = [] ∧
    okValue (getGroupPrincipals p groupDN conn config).1 =
      some (groupDN.map fun dn =>
        { name := "group://" ++ dn
          displayName := dn
          loginName := dn
          principalType := "group"
          provider := ""
          me := false
          memberOf := true }) ∧
    (okValue (getGroupPrincipals p groupDN conn config).1).map List.length =
      some groupDN.length := by
  simp [getGroupPrincipals, hbind, IsErrorWithCode, LDAPResultInvalidCredentials, hen,
    GroupScope, okValue]

/-- The membership DNs of the C1 scenario. -/
def dnsC1 : List String :=
  ["cn=admins,dc=example,dc=com", "cn=dev,dc=example,dc=com", "cn=ops,dc=example,dc=com"]

/-- The connection of the C1 scenario: every bind fails with LDAP result
code 49 (invalid credentials). -/
def connC1 : Conn :=
  { bindResult := fun _ _ => some (.withCode 49 ("invalid credentials"))
    searchResult := fun _ => .ok ⟨[]⟩
    searchPagedResult := fun _ _ => (⟨[]⟩, none) }

/-- C1 witness: resolving the three membership DNs of the scenario under a
failing service bind on an enabled provider yields exactly three
synthesized group principals and no search. -/
theorem c1_degraded_group_fallback_witness :
    dnsC1 ≠ [] ∧
    ((getGroupPrincipals (providerWith connC1) dnsC1 connC1 baseConfig).2 = [] ∧
      okValue (getGroupPrincipals (providerWith connC1) dnsC1 connC1 baseConfig).1 =
        some (dnsC1.map fun dn =>
          { name := "group://" ++ dn
            displayName := dn
            loginName := dn
            principalType := "group"
            provider := ""
            me := false
            memberOf := true }) ∧
      (okValue (getGroupPrincipals (providerWith connC1) dnsC1 connC1 baseConfig).1).map
          List.length = some dnsC1.length) :=
  ⟨by decide, c1_degraded_group_fallback (providerWith connC1) dnsC1 connC1 baseConfig
    ("invalid credentials") (by decide) rfl rfl⟩

/-- Concatenating the batch slices from index i recovers the dropped
suffix, given enough fuel. -/
theorem groupBatchesAux_join (l : List String) :
    ∀ fuel i, l.length ≤ i + 50 * fuel →
      (groupBatchesAux l fuel i).flatten = l.drop i := by
  intro fuel
  induction fuel with
  | zero =>
    intro i h
    simp only [groupBatchesAux, List.flatten]
    exact (List.drop_eq_nil_of_le (by omega)).symm
  | succ fuel ih =>
    intro i h
    simp only [groupBatchesAux]
    by_cases hi : i < l.length
    · rw [if_pos hi]
      simp only [List.flatten_cons]
      rw [ih (i + 50) (by omega)]
      by_cases h50 : i + 50 ≤ l.length
      · have hm : min (i + 50) l.length - i = 50 := by
          unfold min
          split <;> omega
        rw [hm]
        have hdd : l.drop (i + 50) = (l.drop i).drop 50 := by
          rw [List.drop_drop]
        rw [hdd]
        exact List.take_append_drop 50 (l.drop i)
      · have hm : min (i + 50) l.length - i = l.length - i := by
          unfold min
          split <;> omega
        rw [hm]
        have h1 : (l.drop i).take (l.length - i) = l.drop i := by
          apply List.take_of_length_le
          simp [List.length_drop]
        have h2 : l.drop (i + 50) = [] := List.drop_eq_nil_of_le (by omega)
        rw [h1, h2, List.append_nil]
    · rw [if_neg hi]
      simp only [List.flatten_nil]
      exact (List.drop_eq_nil_of_le (by omega)).symm

/-- Every batch slice holds at most 50 DNs. -/
theorem groupBatchesAux_length_le (l : List String) :
    ∀ fuel i b, b ∈ groupBatchesAux l fuel i → b.length ≤ 50 := by
  intro fuel
  induction fuel with
  | zero =>
    intro i b hb
    simp [groupBatchesAux] at hb
  | succ fuel ih =>
    intro i b hb
    simp only [groupBatchesAux] at hb
    by_cases hi : i < l.length
    · rw [if_pos hi] at hb
      rcases List.mem_cons.mp hb with hb | hb
      · subst hb
        have := List.length_take (min (i + 50) l.length - i) (l.drop i)
        have hm : min (i + 50) l.length - i ≤ 50 := by
          unfold min
          split <;> omega
        omega
      · exact ih (i + 50) b hb
    · rw [if_neg hi] at hb
      simp at hb

/-- The lengths of the batch slices depend only on the input length. -/
theorem groupBatchesAux_map_length (l : List String) :
    ∀ fuel i, (groupBatchesAux l fuel i).map List.length = batchLengths l.length fuel i := by
  intro fuel
  induction fuel with
  | zero =>
    intro i
    simp [groupBatchesAux, batchLengths]
  | succ fuel ih =>
    intro i
    simp only [groupBatchesAux, batchLengths]
    by_cases hi : i < l.length
    · rw [if_pos hi, if_pos hi]
      simp only [List.map_cons]
      rw [ih (i + 50)]
      congr 1
      rw [List.length_take, List.length_drop]
      have : min (i + 50) l.length - i ≤ l.length - i := by
        unfold min
        split <;> omega
      omega
    · rw [if_neg hi, if_neg hi]
      simp


/-- On a fully successful run, the batch log of the resolution loop equals
the batch slices. -/
theorem groupBatchLoopAux_log (p : AdProvider) (conn : Conn)
    (config : ActiveDirectoryConfig) (l : List String) :
    ∀ fuel i acc ps,
      (groupBatchLoopAux p conn config l fuel i acc).1 = .ok ps →
      (groupBatchLoopAux p conn config l fuel i acc).2 = groupBatchesAux l fuel i := by
  intro fuel
  induction fuel with
  | zero =>
    intro i acc ps _
    simp [groupBatchLoopAux, groupBatchesAux]
  | succ fuel ih =>
    intro i acc ps h
    by_cases hi : i < l.length
    · simp only [groupBatchLoopAux, groupBatchesAux, if_pos hi] at h ⊢
      rcases hggp : getGroupPrincipals p ((l.drop i).take (min (i + 50) l.length - i))
          conn config with ⟨res, log⟩
      rw [hggp] at h
      cases res with
      | error e => simp at h
      | ok qs =>
        dsimp only at h ⊢
        congr 1
        exact ih (i + 50) (acc ++ qs) ps h
    · simp only [groupBatchLoopAux, groupBatchesAux, if_neg hi]

/-- C6: group resolution partitions the member-of list into consecutive
batches of at most 50 DNs whose concatenation is the original list, one
getGroupPrincipals query per batch; 120 DNs give exactly 3 batches of
sizes 50, 50 and 20. -/
theorem c6_batches_of_fifty (memberOf : List String) :
    (∀ b ∈ batches memberOf, b.length ≤ 50) ∧
    (batches memberOf).flatten = memberOf ∧
    (memberOf.length = 120 →
      (batches memberOf).map List.length = [50, 50, 20] ∧
      (batches memberOf).length = 3) ∧
    (∀ (p : AdProvider) (conn : Conn) (config : ActiveDirectoryConfig) (ps : List Principal),
      (groupBatchLoopAux p conn config memberOf (memberOf.length + 1) 0 []).1 = .ok ps →
      (groupBatchLoopAux p conn config memberOf (memberOf.length + 1) 0 []).2 =
        batches memberOf) := by
  refine ⟨?_, ?_, ?_, ?_⟩
  · intro b hb
    exact groupBatchesAux_length_le memberOf (memberOf.length + 1) 0 b hb
  · have := groupBatchesAux_join memberOf (memberOf.length + 1) 0 (by omega)
    simpa [batches] using this
  · intro h120
    have hmap : (batches memberOf).map List.length = [50, 50, 20] := by
      rw [batches, groupBatchesAux_map_length, h120]
      decide
    refine ⟨hmap, ?_⟩
    have := congrArg List.length hmap
    simpa using this
  · intro p conn config ps h
    exact groupBatchLoopAux_log p conn config memberOf (memberOf.length + 1) 0 [] ps h

/-- A 120-element member-of list for the C6 scenario. -/
def dns120 : List String := List.replicate 120 ("cn=g,dc=example,dc=com")

/-- C6 witness: the 120-DN scenario produces exactly 3 batches of sizes
50, 50 and 20. -/
theorem c6_batches_of_fifty_witness :
    dns120.length = 120 ∧
    (batches dns120).map List.length = [50, 50, 20] ∧
    (batches dns120).length = 3 :=
  ⟨by decide, ((c6_batches_of_fifty dns120).2.2.1 (by decide)).1,
    ((c6_batches_of_fifty dns120).2.2.1 (by decide)).2⟩

/-- String append acts as append on the character data. -/
theorem append_data (a b : String) : (a ++ b).data = a.data ++ b.data := rfl

/-- String append is associative. -/
theorem stringAppend_assoc (a b c : String) : a ++ b ++ c = a ++ (b ++ c) :=
  congrArg String.mk (by simp [append_data, List.append_assoc])

/-- Dropping through the first backslash of pre ++ backslash ++ rest gives
rest when pre is backslash-free. -/
theorem dropThroughBackslash_append (l : List Char) (h : ('\\' : Char) ∉ l)
    (rest : List Char) :
    dropThroughBackslash (l ++ '\\' :: rest) = rest := by
  induction l with
  | nil => simp [dropThroughBackslash]
  | cons c cs ih =>
    have hc : ¬(c = '\\') := fun hh => h (hh ▸ List.mem_cons_self c cs)
    simp only [List.cons_append, dropThroughBackslash]
    rw [if_neg hc]
    exact ih fun hm => h (List.mem_cons_of_mem c hm)

/-- C7: for every login username containing the domain separator, the
account name interpolated into the user search filter is the portion after
the first separator, while the externalID used for the user bind is the
full unstripped username. -/
theorem c7_domain_separator_stripping (pre post domain : String)
    (config : ActiveDirectoryConfig)
    (h : ('\\' : Char) ∉ pre.data) :
    samNameOf (pre ++ "\\" ++ post) = post ∧
    GetUserExternalID (pre ++ "\\" ++ post) domain = pre ++ "\\" ++ post ∧
    loginQueryFilter config (pre ++ "\\" ++ post) =
      "(" ++ config.userLoginAttribute ++ "=" ++ EscapeFilter post ++ ")" := by
  have hdata : (pre ++ "\\" ++ post).data = pre.data ++ '\\' :: post.data := by
    simp [append_data]
  have hcon : ((pre ++ "\\" ++ post).data).contains '\\' = true := by
    rw [hdata]
    simp
  have hsam : samNameOf (pre ++ "\\" ++ post) = post := by
    unfold samNameOf
    rw [if_pos hcon, hdata, dropThroughBackslash_append pre.data h post.data]
  refine ⟨hsam, ?_, ?_⟩
  · unfold GetUserExternalID
    rw [if_pos hcon]
  · unfold loginQueryFilter
    rw [hsam]

/-- C7 witness: the scenario username DOMAIN-backslash-alice searches for
alice but binds with the full username. -/
theorem c7_domain_separator_stripping_witness :
    ('\\' : Char) ∉ ("DOMAIN" : String).data ∧
    (samNameOf ("DOMAIN" ++ "\\" ++ "alice") = "alice" ∧
      GetUserExternalID ("DOMAIN" ++ "\\" ++ "alice") ("EXAMPLE") =
        "DOMAIN" ++ "\\" ++ "alice" ∧
      loginQueryFilter baseConfig ("DOMAIN" ++ "\\" ++ "alice") =
        "(" ++ baseConfig.userLoginAttribute ++ "=" ++ EscapeFilter ("alice") ++ ")") :=
  ⟨by decide, c7_domain_separator_stripping ("DOMAIN") ("alice") ("EXAMPLE") baseConfig
    (by decide)⟩

/-- The escaped form of a single character contains no parenthesis and no
asterisk. -/
theorem escapeFilterChar_no_meta (c : Char) :
    '(' ∉ escapeFilterChar c ∧ ')' ∉ escapeFilterChar c ∧ '*' ∉ escapeFilterChar c := by
  unfold escapeFilterChar
  split_ifs with h1 h2 h3 h4 h5 <;> simp_all <;> simp [eq_comm] at h1 h2 h3 h4 ⊢ <;> tauto

/-- Escaping a whole character list leaves no parenthesis or asterisk. -/
theorem flatMap_escape_no_meta (l : List Char) :
    '(' ∉ l.flatMap escapeFilterChar ∧ ')' ∉ l.flatMap escapeFilterChar ∧
      '*' ∉ l.flatMap escapeFilterChar := by
  induction l with
  | nil => simp
  | cons c cs ih =>
    have hc := escapeFilterChar_no_meta c
    simp only [List.flatMap_cons, List.mem_append, not_or]
    exact ⟨⟨hc.1, ih.1⟩, ⟨hc.2.1, ih.2.1⟩, ⟨hc.2.2, ih.2.2⟩⟩

/-- A list without a close-parenthesis has no close-open pair. -/
theorem containsParenPair_eq_false (l : List Char) (h : ')' ∉ l) :
    containsParenPair l = false := by
  induction l with
  | nil => rfl
  | cons a tl ih =>
    cases tl with
    | nil => rfl
    | cons b rest =>
      have ha : ¬(a = ')') := fun hh => h (hh ▸ List.mem_cons_self a (b :: rest))
      have htl : ')' ∉ b :: rest := fun hm => h (List.mem_cons_of_mem a hm)
      simp only [containsParenPair, Bool.or_eq_false_iff, Bool.and_eq_false_iff]
      exact ⟨Or.inl (beq_eq_false_iff_ne.mpr ha), ih htl⟩

/-- C8: every untrusted filter input is escaped before interpolation - the
escaped form of any input contains no parenthesis or asterisk characters at
all (in particular no close-open pair that could terminate a clause and
inject a new one), both for ldapv2.EscapeFilter (login account name and
membership DNs) and for ldap.EscapeLDAPSearchFilter (free-text search);
the login filter and the per-DN group clauses interpolate only the escaped
form, and the escaped form of the probe input from the spec is a-29-28-b. -/
theorem c8_filter_inputs_escaped (s : String) (config : ActiveDirectoryConfig) :
    ('(' ∉ (EscapeFilter s).data ∧ ')' ∉ (EscapeFilter s).data ∧
      '*' ∉ (EscapeFilter s).data) ∧
    ('(' ∉ (EscapeLDAPSearchFilter s).data ∧ ')' ∉ (EscapeLDAPSearchFilter s).data ∧
      '*' ∉ (EscapeLDAPSearchFilter s).data) ∧
    containsParenPair (EscapeFilter s).data = false ∧
    containsParenPair (EscapeLDAPSearchFilter s).data = false ∧
    loginQueryFilter config s =
      "(" ++ config.userLoginAttribute ++ "=" ++ EscapeFilter (samNameOf s) ++ ")" ∧
    groupQueryFilter config [s] =
      "(&" ++ ("(" ++ ObjectClassAttribute ++ "=" ++ config.groupObjectClass ++ ")") ++
        ("(|" ++ ("(distinguishedName=" ++ EscapeFilter s ++ ")") ++ ")") ++ ")" ∧
    EscapeFilter ("a)(b") = "a\\29\\28b" := by
  have hm := flatMap_escape_no_meta s.data
  refine ⟨hm, hm, containsParenPair_eq_false _ hm.2.1, containsParenPair_eq_false _ hm.2.1,
    rfl, ?_, by decide⟩
  simp [groupQueryFilter, stringAppend_assoc]

/-- The configuration of the C4 scenario: distinct group-name and
user-login attributes. -/
def cfgC4 : ActiveDirectoryConfig :=
  { baseConfig with
    groupNameAttribute := "cn"
    userLoginAttribute := "uid" }

/-- C4 counterexample: a group entry carrying the configured user-login
attribute uid with non-empty first value lname, enumerated before the
group-name attribute cn, is mapped to a principal whose loginName is gname
(the displayName), not lname - the claim fails for this enumeration
order. -/
theorem c4_group_login_order_counterexample :
    attributesToPrincipal
        [{ name := "objectClass", values := ["group"] },
         { name := "uid", values := ["lname"] },
         { name := "cn", values := ["gname"] }]
        ("cn=gname,dc=example,dc=com") GroupScope cfgC4 =
      .ok (some
        { name := "group://cn=gname,dc=example,dc=com"
          displayName := "gname"
          loginName := "gname"
          principalType := "group"
          provider := Name
          me := false
          memberOf := false }) ∧
    ("gname" : String) ≠ "lname" := by
  refine ⟨by decide, by decide⟩

/-- C4 amended: the group loginName is enumeration-order dependent.  When
the last enumerated attribute is the configured user-login attribute with
a non-empty first value, loginName is that value; when the last enumerated
attribute is any other attribute, loginName ends equal to displayName,
regardless of whether the login attribute appeared earlier with a
non-empty value. -/
theorem c4_group_login_last_attribute_wins
    (config : ActiveDirectoryConfig) (dn : String)
    (init : List EntryAttribute) (a : EntryAttribute) (v : String) (vs : List String)
    (hu : IsType (init ++ [a]) config.userObjectClass = false)
    (hg : IsType (init ++ [a]) config.groupObjectClass = true)
    (hval : a.values = v :: vs)
    (hv : v ≠ "") :
    (a.name ≠ config.userLoginAttribute →
      mappedLoginName (attributesToPrincipal (init ++ [a]) dn GroupScope config) =
        mappedDisplayName (attributesToPrincipal (init ++ [a]) dn GroupScope config)) ∧
    (a.name = config.userLoginAttribute →
      mappedLoginName (attributesToPrincipal (init ++ [a]) dn GroupScope config) = some v) ∧
    mappedLoginName (attributesToPrincipal (init ++ [a]) dn GroupScope config) ≠ none := by
  simp only [attributesToPrincipal, hu, hg, Bool.false_eq_true, if_false, if_true,
    List.foldl_append, List.foldl_cons, List.foldl_nil]
  refine ⟨?_, ?_, ?_⟩
  · intro hne
    simp [mappedLoginName, mappedDisplayName, groupAttrStep, beq_eq_false_iff_ne.mpr hne]
  · intro heq
    simp [mappedLoginName, groupAttrStep, heq, hval, hv]
  · simp [mappedLoginName]

/-- C4 witness: with the same entry content but the login attribute
enumerated last, loginName is lname. -/
theorem c4_group_login_last_attribute_wins_witness :
    (IsType [{ name := "objectClass", values := ["group"] },
             { name := "cn", values := ["gname"] },
             { name := "uid", values := ["lname"] }] cfgC4.userObjectClass = false ∧
      IsType [{ name := "objectClass", values := ["group"] },
              { name := "cn", values := ["gname"] },
              { name := "uid", values := ["lname"] }] cfgC4.groupObjectClass = true) ∧
    (({ name := "uid", values := ["lname"] } : EntryAttribute).name ≠
        cfgC4.userLoginAttribute →
      mappedLoginName (attributesToPrincipal
          [{ name := "objectClass", values := ["group"] },
           { name := "cn", values := ["gname"] },
           { name := "uid", values := ["lname"] }]
          ("cn=gname,dc=example,dc=com") GroupScope cfgC4) =
        mappedDisplayName (attributesToPrincipal
          [{ name := "objectClass", values := ["group"] },
           { name := "cn", values := ["gname"] },
           { name := "uid", values := ["lname"] }]
          ("cn=gname,dc=example,dc=com") GroupScope cfgC4)) ∧
    (({ name := "uid", values := ["lname"] } : EntryAttribute).name =
        cfgC4.userLoginAttribute →
      mappedLoginName (attributesToPrincipal
          [{ name := "objectClass", values := ["group"] },
           { name := "cn", values := ["gname"] },
           { name := "uid", values := ["lname"] }]
          ("cn=gname,dc=example,dc=com") GroupScope cfgC4) = some ("lname")) ∧
    mappedLoginName (attributesToPrincipal
        [{ name := "objectClass", values := ["group"] },
         { name := "cn", values := ["gname"] },
         { name := "uid", values := ["lname"] }]
        ("cn=gname,dc=example,dc=com") GroupScope cfgC4) ≠ none :=
  ⟨⟨by decide, by decide⟩,
    c4_group_login_last_attribute_wins cfgC4 ("cn=gname,dc=example,dc=com")
      [{ name := "objectClass", values := ["group"] },
       { name := "cn", values := ["gname"] }]
      { name := "uid", values := ["lname"] } ("lname") [] (by decide) (by decide) rfl
      (by decide)⟩

/-- The configuration of the C9 scenario. -/
def cfgC9 : ActiveDirectoryConfig :=
  { baseConfig with
    userObjectClass := "person"
    userLoginAttribute := "uid"
    userNameAttribute := "cn" }

/-- C9: mapping a user entry whose configured user-login attribute is
present with an empty value list does not return a Principal - the
unguarded attr.Values[0] access makes the mapping hit a Go
index-out-of-range panic instead, so the mapping is not total for user
entries. -/
theorem c9_user_mapping_panics_on_empty_login_values :
    attributesToPrincipal
        [{ name := "objectClass", values := ["person"] },
         { name := "uid", values := [] }]
        ("cn=joe,dc=example,dc=com") UserScope cfgC9 =
      .error (.goPanic ("runtime error: index out of range")) := by
  decide

/-- The inline object-class scan of getPrincipalsFromSearchResult stays at
its accumulator when no value matches. -/
theorem foldl_isType_false (t : String) :
    ∀ (l : List String) (acc : Bool),
      (∀ v ∈ l, equalFold v t = false) →
      l.foldl (fun acc obj => if equalFold obj t then true else acc) acc = acc := by
  intro l
  induction l with
  | nil =>
    intro acc _
    rfl
  | cons c cs ih =>
    intro acc h
    have hc : equalFold c t = false := h c (List.mem_cons_self c cs)
    simp only [List.foldl_cons, hc, Bool.false_eq_true, if_false]
    exact ih acc fun v hv => h v (List.mem_cons_of_mem c hv)

/-- C10: when the single entry found by the login search carries no
object-class value matching the configured user object class, the
user-record step returns the zero-value principal, no groups and no
error, and the login flow proceeds to the external authorization check
with that empty principal instead of failing. -/
theorem c10_unrecognized_objectclass_proceeds
    (p : AdProvider) (conn : Conn) (config : ActiveDirectoryConfig)
    (username password : String) (entry : LdapEntry)
    (hpw : password ≠ "")
    (hen : config.enabled = true)
    (hconn : p.newConn = .ok conn)
    (hbind : conn.bindResult (GetUserExternalID username config.defaultLoginDomain)
        password = none)
    (hsearch : conn.searchResult (loginSearchRequest config username) = .ok ⟨[entry]⟩)
    (hperm : p.hasPermission entry.attributes config = true)
    (htype : ∀ v ∈ GetAttributeValues entry ObjectClassAttribute,
        equalFold v config.userObjectClass = false) :
    getPrincipalsFromSearchResult p ⟨[entry]⟩ config = (.ok (emptyPrincipal, []), []) ∧
    loginUser p username password config =
      (match p.checkAccess config.accessMode config.allowedPrincipalIDs
          emptyPrincipal [] with
       | .error e => .error e
       | .ok true => .ok (emptyPrincipal, [], [])
       | .ok false => .error (.apiError .Unauthorized ("unauthorized"))) := by
  have hfold := foldl_isType_false config.userObjectClass
    (GetAttributeValues entry ObjectClassAttribute) false htype
  have h1 : getPrincipalsFromSearchResult p ⟨[entry]⟩ config =
      (.ok (emptyPrincipal, []), []) := by
    simp only [getPrincipalsFromSearchResult]
    rw [hfold]
    simp [hperm]
  refine ⟨h1, ?_⟩
  have hpw2 : (password == "") = false := beq_eq_false_iff_ne.mpr hpw
  simp only [loginUser, hpw2, Bool.false_eq_true, if_false, hconn, hen, Bool.not_true,
    userRecord, hsearch, hbind, h1, List.length_cons, List.length_nil]
  cases hca : p.checkAccess config.accessMode config.allowedPrincipalIDs
      emptyPrincipal [] with
  | error e => simp [hca]
  | ok allowed =>
    cases allowed with
    | true => simp [hca]
    | false => simp [hca]

/-- The entry of the C10 scenario: its only object class is computer,
matching neither configured object class. -/
def entryC10 : LdapEntry :=
  { dn := "cn=alice,ou=users,dc=example,dc=com"
    attributes := [{ name := "objectClass", values := ["computer"] }] }

/-- The connection of the C10 scenario: all binds succeed and the user
search finds exactly entryC10. -/
def connC10 : Conn :=
  { bindResult := fun _ _ => none
    searchResult := fun _ => .ok ⟨[entryC10]⟩
    searchPagedResult := fun _ _ => (⟨[]⟩, none) }

/-- C10 witness: the scenario login returns successfully with the empty
principal after the permissive authorization check. -/
theorem c10_unrecognized_objectclass_proceeds_witness :
    getPrincipalsFromSearchResult (providerWith connC10) ⟨[entryC10]⟩ baseConfig =
      (.ok (emptyPrincipal, []), []) ∧
    loginUser (providerWith connC10) ("alice") ("pw") baseConfig =
      (match (providerWith connC10).checkAccess baseConfig.accessMode
          baseConfig.allowedPrincipalIDs emptyPrincipal [] with
       | .error e => .error e
       | .ok true => .ok (emptyPrincipal, [], [])
       | .ok false => .error (.apiError .Unauthorized ("unauthorized"))) :=
  c10_unrecognized_objectclass_proceeds (providerWith connC10) connC10 baseConfig
    ("alice") ("pw") entryC10 (by decide) rfl rfl rfl rfl rfl (by decide)

/-- The connection of the C3 scenario: binds succeed and the user search
finds nothing. -/
def connC3 : Conn :=
  { bindResult := fun _ _ => none
    searchResult := fun _ => .ok ⟨[]⟩
    searchPagedResult := fun _ _ => (⟨[]⟩, none) }

/-- C3 counterexample: with a successful user bind and an empty user
search result, login fails with a plain unclassified error that names the
search filter - not an Unauthorized-classified error - so user-not-found
and wrong-password are distinguishable from the login result. -/
theorem c3_user_not_found_counterexample :
    loginUser (providerWith connC3) ("bob") ("pw") baseConfig =
      .error (.generic ("Cannot locate user information for (sAMAccountName=bob)")) ∧
    isApiErrorWithCode
      (.generic ("Cannot locate user information for (sAMAccountName=bob)"))
      .Unauthorized = false :=
  ⟨by rfl, by rfl⟩

/-- C3 amended: a user bind failing with invalid credentials surfaces as
an Unauthorized-classified API error, but a user search with zero matching
entries surfaces as a plain unclassified error carrying the search filter;
the two login failures are therefore distinguishable. -/
theorem c3_login_errors_distinguishable
    (p : AdProvider) (conn : Conn) (config : ActiveDirectoryConfig)
    (username password em : String)
    (hpw : password ≠ "")
    (hen : config.enabled = true)
    (hconn : p.newConn = .ok conn) :
    (conn.bindResult (GetUserExternalID username config.defaultLoginDomain) password =
        some (.withCode LDAPResultInvalidCredentials em) →
      loginUser p username password config =
        .error (.apiError .Unauthorized ("authentication failed"))) ∧
    (conn.bindResult (GetUserExternalID username config.defaultLoginDomain) password =
        none →
      conn.searchResult (loginSearchRequest config username) = .ok ⟨[]⟩ →
      loginUser p username password config =
        .error (.generic ("Cannot locate user information for " ++
          loginQueryFilter config username)) ∧
      isApiErrorWithCode
        (.generic ("Cannot locate user information for " ++
          loginQueryFilter config username)) .Unauthorized = false) := by
  have hpw2 : (password == "") = false := beq_eq_false_iff_ne.mpr hpw
  constructor
  · intro hb
    simp [loginUser, hpw2, hconn, hen, hb, IsErrorWithCode, LDAPResultInvalidCredentials]
  · intro hb hs
    constructor
    · simp only [loginUser, hpw2, Bool.false_eq_true, if_false, hconn, hen, Bool.not_true,
        userRecord, hs, hb]
      simp
      rfl
    · rfl

/-- C3 witness: the amended statement at the concrete zero-result
scenario. -/
theorem c3_login_errors_distinguishable_witness :
    (connC3.bindResult (GetUserExternalID ("bob") baseConfig.defaultLoginDomain) ("pw") =
        some (.withCode LDAPResultInvalidCredentials ("x")) →
      loginUser (providerWith connC3) ("bob") ("pw") baseConfig =
        .error (.apiError .Unauthorized ("authentication failed"))) ∧
    (connC3.bindResult (GetUserExternalID ("bob") baseConfig.defaultLoginDomain) ("pw") =
        none →
      connC3.searchResult (loginSearchRequest baseConfig ("bob")) = .ok ⟨[]⟩ →
      loginUser (providerWith connC3) ("bob") ("pw") baseConfig =
        .error (.generic ("Cannot locate user information for " ++
          loginQueryFilter baseConfig ("bob"))) ∧
      isApiErrorWithCode
        (.generic ("Cannot locate user information for " ++
          loginQueryFilter baseConfig ("bob"))) .Unauthorized = false) :=
  c3_login_errors_distinguishable (providerWith connC3) connC3 baseConfig
    ("bob") ("pw") ("x") (by decide) rfl rfl

/-- Any principal the attribute mapper returns carries the id
scope://dn. -/
theorem attributesToPrincipal_name (attribs : List EntryAttribute)
    (dn scope : String) (config : ActiveDirectoryConfig) (pr : Principal)
    (h : attributesToPrincipal attribs dn scope config = .ok (some pr)) :
    pr.name = scope ++ "://" ++ dn := by
  unfold attributesToPrincipal at h
  dsimp only at h
  split at h
  · rcases hfold : attribs.foldlM (userAttrStep config dn) ("", "") with e | st
    · rw [hfold] at h
      exact absurd h (by simp)
    · rw [hfold] at h
      simp only [Except.ok.injEq, Option.some.injEq] at h
      subst h
      rfl
  · split at h
    · simp only [Except.ok.injEq, Option.some.injEq] at h
      subst h
      rfl
    · exact absurd h (by simp)

/-- C2 amended: for an exact lookup by DN, after a successful
service-account bind and a successful base-scope search, zero matching
entries yield the plain unclassified error "No identities can be
retrieved" (not a NotFound-classified API error), exactly one matching
entry (passing the permission check and mapping to a principal) yields
that principal, whose id is scope://dn, and more than one matching entry
yields the plain unclassified error "More than one result found" (not an
Ambiguous-classified API error). -/
theorem c2_exact_lookup_results
    (p : AdProvider) (conn : Conn) (config : ActiveDirectoryConfig)
    (dn scope : String) (attribs : List EntryAttribute)
    (entries : List LdapEntry) (entry : LdapEntry) (pr : Principal)
    (hscope : scopes.contains scope = true)
    (hparse : p.parseDN dn = .ok attribs)
    (hpre : (IsType attribs scope || p.hasPermission attribs config) = true)
    (hconn : p.newConn = .ok conn)
    (hbind : conn.bindResult
        (GetUserExternalID config.serviceAccountUsername config.defaultLoginDomain)
        config.serviceAccountPassword = none)
    (hsearch : conn.searchResult (getPrincipalSearchRequest dn scope config) =
        .ok ⟨entries⟩)
    (hperm : p.hasPermission entry.attributes config = true)
    (hatp : attributesToPrincipal entry.attributes dn scope config = .ok (some pr)) :
    (entries = [] →
      getPrincipal p dn scope config = .error (.generic ("No identities can be retrieved")) ∧
      isApiErrorWithCode (.generic ("No identities can be retrieved")) .NotFound = false) ∧
    (entries = [entry] →
      getPrincipal p dn scope config = .ok (some pr) ∧
      pr.name = scope ++ "://" ++ dn) ∧
    (2 ≤ entries.length →
      getPrincipal p dn scope config = .error (.generic ("More than one result found")) ∧
      isApiErrorWithCode (.generic ("More than one result found")) .Ambiguous = false) := by
  have hpre2 : (!(IsType attribs scope) && !(p.hasPermission attribs config)) = false := by
    rw [← Bool.not_or, hpre]
    rfl
  have hmem : scope ∈ scopes := by
    simpa using hscope
  refine ⟨?_, ?_, ?_⟩
  · intro he
    subst he
    constructor
    · simp [getPrincipal, hmem, hparse, hpre2, hconn, hbind, hsearch]
    · rfl
  · intro he
    subst he
    refine ⟨?_, attributesToPrincipal_name entry.attributes dn scope config pr hatp⟩
    simp [getPrincipal, hmem, hparse, hpre2, hconn, hbind, hsearch, hperm, hatp]
  · intro hlen
    match entries, hsearch, hlen with
    | e1 :: e2 :: rest, hsearch, _ =>
      constructor
      · simp [getPrincipal, hmem, hparse, hpre2, hconn, hbind, hsearch]
      · rfl

/-- The connection of the C2 zero-result scenario: binds succeed and the
base-scope search finds nothing. -/
def connC2 : Conn :=
  { bindResult := fun _ _ => none
    searchResult := fun _ => .ok ⟨[]⟩
    searchPagedResult := fun _ _ => (⟨[]⟩, none) }

/-- C2 counterexample: after a successful service bind and a successful
base-scope search with zero matching entries, getPrincipal returns the
plain fmt.Errorf error "No identities can be retrieved", which carries no
classification - not a NotFound-classified API error as the claim
states. -/
theorem c2_zero_entries_counterexample :
    getPrincipal (providerWith connC2) ("cn=bob,dc=example,dc=com") UserScope baseConfig =
      .error (.generic ("No identities can be retrieved")) ∧
    isApiErrorWithCode (.generic ("No identities can be retrieved")) .NotFound = false :=
  ⟨by rfl, by rfl⟩

/-- The single entry of the C2 witness scenario. -/
def entryC2 : LdapEntry :=
  { dn := "cn=carol,dc=example,dc=com"
    attributes :=
      [{ name := "objectClass", values := ["person"] },
       { name := "name", values := ["Carol"] },
       { name := "sAMAccountName", values := ["carol"] }] }

/-- The connection of the C2 witness scenario: the base-scope search finds
exactly entryC2. -/
def connC2w : Conn :=
  { bindResult := fun _ _ => none
    searchResult := fun _ => .ok ⟨[entryC2]⟩
    searchPagedResult := fun _ _ => (⟨[]⟩, none) }

/-- The principal the C2 witness scenario maps entryC2 to. -/
def prC2 : Principal :=
  { name := "user://cn=carol,dc=example,dc=com"
    displayName := "Carol"
    loginName := "carol"
    principalType := "user"
    provider := Name
    me := false
    memberOf := false }

/-- C2 witness: the amended statement at the concrete one-entry
scenario. -/
theorem c2_exact_lookup_results_witness :
    ([entryC2] = ([] : List LdapEntry) →
      getPrincipal (providerWith connC2w) ("cn=carol,dc=example,dc=com") UserScope
          baseConfig = .error (.generic ("No identities can be retrieved")) ∧
      isApiErrorWithCode (.generic ("No identities can be retrieved")) .NotFound = false) ∧
    ([entryC2] = [entryC2] →
      getPrincipal (providerWith connC2w) ("cn=carol,dc=example,dc=com") UserScope
          baseConfig = .ok (some prC2) ∧
      prC2.name = UserScope ++ "://" ++ "cn=carol,dc=example,dc=com") ∧
    (2 ≤ ([entryC2] : List LdapEntry).length →
      getPrincipal (providerWith connC2w) ("cn=carol,dc=example,dc=com") UserScope
          baseConfig = .error (.generic ("More than one result found")) ∧
      isApiErrorWithCode (.generic ("More than one result found")) .Ambiguous = false) :=
  c2_exact_lookup_results (providerWith connC2w) connC2w baseConfig
    ("cn=carol,dc=example,dc=com") UserScope [] [entryC2] entryC2 prC2
    (by decide) rfl (by decide) rfl rfl rfl (by decide) (by rfl)

/-- The connection of the C5 non-LDAP-failure scenario: the paged search
reports a plain (non-LDAP-typed) network error alongside empty partial
results. -/
def connC5 : Conn :=
  { bindResult := fun _ _ => none
    searchResult := fun _ => .ok ⟨[]⟩
    searchPagedResult := fun _ _ => (⟨[]⟩, some (.other ("network unreachable"))) }

/-- C5 counterexample: a paged bulk search whose failure is not an
LDAP-typed error is silently ignored - searchLdap returns ok with the
(empty) partial results instead of any ServerError-classified error. -/
theorem c5_non_ldap_error_swallowed_counterexample :
    connC5.searchPagedResult (searchLdapRequest ("(cn=bob*)") UserScope baseConfig) 1000 =
      (⟨[]⟩, some (.other ("network unreachable"))) ∧
    searchLdap (providerWith connC5) ("(cn=bob*)") UserScope baseConfig = .ok [] :=
  ⟨rfl, by rfl⟩

/-- C5 amended: on a paged bulk search, a directory failure with result
code 32 (no such object) is tolerated silently, and so is any failure
that is not an LDAP-typed error - in both cases the (partial) results are
mapped as if the search succeeded; an LDAP-typed failure with any other
result code is returned as a plain unclassified error (not a
ServerError-classified API error). -/
theorem c5_paged_search_error_handling
    (p : AdProvider) (conn : Conn) (config : ActiveDirectoryConfig)
    (query scope : String) (entries : List LdapEntry) (c : Nat) (em : String)
    (hconn : p.newConn = .ok conn)
    (hbind : conn.bindResult
        (GetUserExternalID config.serviceAccountUsername config.defaultLoginDomain)
        config.serviceAccountPassword = none) :
    (conn.searchPagedResult (searchLdapRequest query scope config) 1000 =
        (⟨entries⟩, some (.withCode 32 em)) →
      searchLdap p query scope config = mapSearchEntries scope config entries) ∧
    (conn.searchPagedResult (searchLdapRequest query scope config) 1000 =
        (⟨entries⟩, some (.other em)) →
      searchLdap p query scope config = mapSearchEntries scope config entries) ∧
    (c ≠ 32 →
      conn.searchPagedResult (searchLdapRequest query scope config) 1000 =
        (⟨entries⟩, some (.withCode c em)) →
      searchLdap p query scope config =
        .error (.generic ("When searching ldap, Failed to search: " ++ query)) ∧
      isApiErrorWithCode
        (.generic ("When searching ldap, Failed to search: " ++ query))
        .ServerError = false) := by
  refine ⟨?_, ?_, ?_⟩
  · intro hpaged
    simp [searchLdap, hconn, hbind, hpaged, LDAPResultNoSuchObject]
  · intro hpaged
    simp [searchLdap, hconn, hbind, hpaged]
  · intro hc hpaged
    constructor
    · simp [searchLdap, hconn, hbind, hpaged, LDAPResultNoSuchObject, hc]
    · rfl

/-- C5 witness: the amended statement at the concrete
non-LDAP-failure scenario. -/
theorem c5_paged_search_error_handling_witness :
    (connC5.searchPagedResult (searchLdapRequest ("(cn=bob*)") UserScope baseConfig) 1000 =
        (⟨[]⟩, some (.withCode 32 ("network unreachable"))) →
      searchLdap (providerWith connC5) ("(cn=bob*)") UserScope baseConfig =
        mapSearchEntries UserScope baseConfig []) ∧
    (connC5.searchPagedResult (searchLdapRequest ("(cn=bob*)") UserScope baseConfig) 1000 =
        (⟨[]⟩, some (.other ("network unreachable"))) →
      searchLdap (providerWith connC5) ("(cn=bob*)") UserScope baseConfig =
        mapSearchEntries UserScope baseConfig []) ∧
    (49 ≠ 32 →
      connC5.searchPagedResult (searchLdapRequest ("(cn=bob*)") UserScope baseConfig) 1000 =
        (⟨[]⟩, some (.withCode 49 ("network unreachable"))) →
      searchLdap (providerWith connC5) ("(cn=bob*)") UserScope baseConfig =
        .error (.generic ("When searching ldap, Failed to search: " ++ "(cn=bob*)")) ∧
      isApiErrorWithCode
        (.generic ("When searching ldap, Failed to search: " ++ "(cn=bob*)"))
        .ServerError = false) :=
  c5_paged_search_error_handling (providerWith connC5) connC5 baseConfig
    ("(cn=bob*)") UserScope [] 49 ("network unreachable") rfl rfl

end AD
